import Mathlib

/-!
Shallow embedding of the robot-battle field engine (`Ken/DJI/Objects.py`):
2D point algebra, oriented and upright rectangles, bullets, robots and
zone state machines, together with theorems checking the specification's
claims about them.

Machine floats of the source are embedded as exact numbers: real numbers
for geometry (the source uses `math.cos`, `math.sin` and Euclidean norms),
rationals for health and integers for counters and timers.
-/

/-- Modelled from the spec: the `Point` class lives in `utils.py`, which is
not part of the sources; §4.1 lists its operations (`move`, `diff`,
`midpoint`, `dot`, `length`, `project`), all pure 2D vector algebra.
`length` is the Euclidean norm and `project` the standard vector projection
of `self` onto `onto`. -/
structure Point where
  x : ℝ
  y : ℝ

noncomputable def Point.move (p : Point) (dx dy : ℝ) : Point := ⟨p.x + dx, p.y + dy⟩

/-- Vector from `other` to `self`. -/
noncomputable def Point.diff (p other : Point) : Point := ⟨p.x - other.x, p.y - other.y⟩

noncomputable def Point.midpoint (p other : Point) : Point :=
  ⟨(p.x + other.x) / 2, (p.y + other.y) / 2⟩

noncomputable def Point.dot (p other : Point) : ℝ := p.x * other.x + p.y * other.y

noncomputable def Point.length (p : Point) : ℝ := Real.sqrt (p.dot p)

/-- Modelled from the spec: vector projection of `p` onto `onto`
(the scalar `p·onto / onto·onto` times `onto`). -/
noncomputable def Point.project (p onto : Point) : Point :=
  ⟨p.dot onto / onto.dot onto * onto.x, p.dot onto / onto.dot onto * onto.y⟩

/-- `Rectangle.setAngle` (Objects.py lines 65-71) as a pure normalization:
repeatedly add or subtract 360 until the degree value lies in `[0, 360)`. -/
noncomputable def setAngle (deg : ℝ) : ℝ :=
  if deg < 0 then setAngle (deg + 360)
  else if deg ≥ 360 then setAngle (deg - 360)
  else deg
termination_by (⌊deg / 360⌋).natAbs
decreasing_by
  · have h1 : deg / 360 < 0 := div_neg_of_neg_of_pos (by assumption) (by norm_num)
    have h2 : ⌊deg / 360⌋ < 0 := by
      have h4 : (⌊deg / 360⌋ : ℝ) ≤ deg / 360 := Int.floor_le _
      by_contra hc
      push_neg at hc
      have : (0 : ℝ) ≤ (⌊deg / 360⌋ : ℝ) := by exact_mod_cast hc
      linarith
    have h5 : ⌊(deg + 360) / 360⌋ = ⌊deg / 360⌋ + 1 := by
      have : (deg + 360) / 360 = deg / 360 + 1 := by ring
      rw [this, Int.floor_add_one]
    rw [h5]
    omega
  · have h1 : (1 : ℝ) ≤ deg / 360 := by
      rw [le_div_iff₀ (by norm_num : (0:ℝ) < 360)]
      linarith [show deg ≥ 360 by assumption]
    have h2 : 1 ≤ ⌊deg / 360⌋ := by
      exact Int.le_floor.mpr (by exact_mod_cast h1)
    have h5 : ⌊(deg - 360) / 360⌋ = ⌊deg / 360⌋ - 1 := by
      have : (deg - 360) / 360 = deg / 360 - 1 := by ring
      rw [this, Int.floor_sub_one]
    rw [h5]
    omega

lemma setAngle_of_mem (deg : ℝ) (h0 : 0 ≤ deg) (h1 : deg < 360) :
    setAngle deg = deg := by
  rw [setAngle]
  rw [if_neg (not_lt.mpr h0), if_neg (not_le.mpr h1)]

lemma setAngle_mem_range (deg : ℝ) : 0 ≤ setAngle deg ∧ setAngle deg < 360 := by
  generalize hn : (⌊deg / 360⌋).natAbs = n
  induction n using Nat.strong_induction_on generalizing deg with
  | _ n ih =>
    rw [setAngle]
    by_cases hneg : deg < 0
    · rw [if_pos hneg]
      have h1 : deg / 360 < 0 := div_neg_of_neg_of_pos hneg (by norm_num)
      have h2 : ⌊deg / 360⌋ < 0 := by
        have h4 : (⌊deg / 360⌋ : ℝ) ≤ deg / 360 := Int.floor_le _
        by_contra hc
        push_neg at hc
        have : (0 : ℝ) ≤ (⌊deg / 360⌋ : ℝ) := by exact_mod_cast hc
        linarith
      have h5 : ⌊(deg + 360) / 360⌋ = ⌊deg / 360⌋ + 1 := by
        have : (deg + 360) / 360 = deg / 360 + 1 := by ring
        rw [this, Int.floor_add_one]
      exact ih (⌊(deg + 360) / 360⌋).natAbs (by rw [h5]; omega) _ rfl
    · rw [if_neg hneg]
      by_cases hge : deg ≥ 360
      · rw [if_pos hge]
        have h1 : (1 : ℝ) ≤ deg / 360 := by
          rw [le_div_iff₀ (by norm_num : (0:ℝ) < 360)]; linarith
        have h2 : 1 ≤ ⌊deg / 360⌋ := by
          exact Int.le_floor.mpr (by exact_mod_cast h1)
        have h5 : ⌊(deg - 360) / 360⌋ = ⌊deg / 360⌋ - 1 := by
          have : (deg - 360) / 360 = deg / 360 - 1 := by ring
          rw [this, Int.floor_sub_one]
        exact ih (⌊(deg - 360) / 360⌋).natAbs (by rw [h5]; omega) _ rfl
      · rw [if_neg hge]
        exact ⟨not_lt.mp hneg, not_le.mp hge⟩

lemma setAngle_idem (deg : ℝ) : setAngle (setAngle deg) = setAngle deg := by
  obtain ⟨h0, h1⟩ := setAngle_mem_range deg
  exact setAngle_of_mem _ h0 h1

/-- `Rectangle` state after `__init__` (Objects.py lines 40-47): the stored
`angle` is normalized by `setAngle`, but line 45 then overwrites
`angle_radian` with the conversion of the raw constructor argument.
`vertices` and `center` are cached from these fields at construction; we
embed them as the derived functions below, which agree with the cache for
every rectangle produced by `Rectangle.init`. -/
structure Rectangle where
  bottom_left : Point
  width : ℝ
  height : ℝ
  angle : ℝ
  angle_radian : ℝ

/-- `Rectangle.__init__(bottom_left, width, height, angle)`. -/
noncomputable def Rectangle.init (bl : Point) (w h deg : ℝ) : Rectangle :=
  ⟨bl, w, h, setAngle deg, deg / 180 * Real.pi⟩

/-- `vertices[1]`: `bottom_left.move(cos(angle_radian)*width, sin(angle_radian)*width)`. -/
noncomputable def Rectangle.bottom_right (r : Rectangle) : Point :=
  r.bottom_left.move (Real.cos r.angle_radian * r.width) (Real.sin r.angle_radian * r.width)

/-- `vertices[3]`: `bottom_left.move(-sin(angle_radian)*height, cos(angle_radian)*height)`. -/
noncomputable def Rectangle.top_left (r : Rectangle) : Point :=
  r.bottom_left.move (-Real.sin r.angle_radian * r.height) (Real.cos r.angle_radian * r.height)

/-- `vertices[2]`: `bottom_right.move(height_dx, height_dy)`. -/
noncomputable def Rectangle.top_right (r : Rectangle) : Point :=
  r.bottom_right.move (-Real.sin r.angle_radian * r.height) (Real.cos r.angle_radian * r.height)

/-- `Rectangle.getVertices` (lines 49-60). -/
noncomputable def Rectangle.getVertices (r : Rectangle) : List Point :=
  [r.bottom_left, r.bottom_right, r.top_right, r.top_left]

/-- `Rectangle.getCenter` (lines 62-63): midpoint of `bottom_left` and `vertices[2]`. -/
noncomputable def Rectangle.center (r : Rectangle) : Point :=
  r.bottom_left.midpoint r.top_right

/-- `Rectangle.contains` (lines 77-91): project the vector from the anchor
onto the width and height axis vectors and compare the projection lengths
against the spans with a `0.01` tolerance, also requiring both projections
to point to the correct side. -/
noncomputable def Rectangle.contains (r : Rectangle) (point : Point) : Prop :=
  let error_threshold : ℝ := 0.01
  let goal_vec := point.diff r.bottom_left
  let width_vec := r.bottom_right.diff r.bottom_left
  let height_vec := r.top_left.diff r.bottom_left
  let width_proj := goal_vec.project width_vec
  let height_proj := goal_vec.project height_vec
  width_proj.length - r.width < error_threshold ∧
  height_proj.length - r.height < error_threshold ∧
  width_proj.dot width_vec ≥ 0 ∧
  height_proj.dot height_vec ≥ 0

/-- `Rectangle.intersects` (lines 97-99): true iff some vertex of either
rectangle is contained in the other (an approximate test; the source
comments that some overlap cases are not considered). -/
noncomputable def Rectangle.intersects (r other : Rectangle) : Prop :=
  (∃ v ∈ other.getVertices, r.contains v) ∨ (∃ v ∈ r.getVertices, other.contains v)

/-- `Rectangle.blocks(point, vec)` (lines 101-102): ignores the motion
vector and just tests containment of the destination point. -/
noncomputable def Rectangle.blocksAt (r : Rectangle) (point vec : Point) : Prop :=
  r.contains point

/-- `uprightRectangle.getVertices` (lines 123-128): the no-rotation case. -/
noncomputable def uprightVertices (r : Rectangle) : List Point :=
  [r.bottom_left, r.bottom_left.move r.width 0,
   (r.bottom_left.move r.width 0).move 0 r.height, r.bottom_left.move 0 r.height]

/-- `uprightRectangle.contains` (lines 130-134): direct coordinate-bound
comparison against `bottom_left` and `vertices[2]`, inclusive on all sides. -/
noncomputable def uprightContains (r : Rectangle) (point : Point) : Prop :=
  let top_right := (r.bottom_left.move r.width 0).move 0 r.height
  r.bottom_left.x ≤ point.x ∧ r.bottom_left.y ≤ point.y ∧
  top_right.x ≥ point.x ∧ top_right.y ≥ point.y

/-- `Rectangle.intersects` as inherited by `uprightRectangle`: same vertex
test, but with the overridden vertices and containment. -/
noncomputable def uprightIntersects (r other : Rectangle) : Prop :=
  (∃ v ∈ uprightVertices other, uprightContains r v) ∨
  (∃ v ∈ uprightVertices r, uprightContains other v)

/-- **C8**: `setAngle` always lands in `[0, 360)`, leaves an
already-normalized angle unchanged, and is idempotent. -/
theorem C8_setAngle_normalizes_and_idempotent (x : ℝ) :
    (0 ≤ setAngle x ∧ setAngle x < 360) ∧
    (0 ≤ x → x < 360 → setAngle x = x) ∧
    setAngle (setAngle x) = setAngle x :=
  ⟨setAngle_mem_range x, fun h0 h1 => setAngle_of_mem x h0 h1, setAngle_idem x⟩

/-- Witness for C8 at the concrete inputs `725` and `5`. -/
theorem C8_witness :
    (0 ≤ setAngle 725 ∧ setAngle 725 < 360) ∧ setAngle 5 = 5 :=
  ⟨(C8_setAngle_normalizes_and_idempotent 725).1,
   (C8_setAngle_normalizes_and_idempotent 5).2.1 (by norm_num) (by norm_num)⟩

lemma project_onto_xaxis (gx gy w : ℝ) (hw : w ≠ 0) :
    Point.project ⟨gx, gy⟩ ⟨w, 0⟩ = (⟨gx, 0⟩ : Point) := by
  simp only [Point.project, Point.dot, Point.mk.injEq]
  constructor
  · field_simp
    ring
  · simp

lemma project_onto_yaxis (gx gy h : ℝ) (hh : h ≠ 0) :
    Point.project ⟨gx, gy⟩ ⟨0, h⟩ = (⟨0, gy⟩ : Point) := by
  simp only [Point.project, Point.dot, Point.mk.injEq]
  constructor
  · simp
  · field_simp
    ring

lemma length_xaxis (a : ℝ) : Point.length ⟨a, 0⟩ = |a| := by
  simp only [Point.length, Point.dot]
  rw [show a * a + 0 * 0 = a ^ 2 by ring, Real.sqrt_sq_eq_abs]

lemma length_yaxis (a : ℝ) : Point.length ⟨0, a⟩ = |a| := by
  simp only [Point.length, Point.dot]
  rw [show 0 * 0 + a * a = a ^ 2 by ring, Real.sqrt_sq_eq_abs]

lemma width_vec_angle_zero (r : Rectangle) (h0 : r.angle_radian = 0) :
    r.bottom_right.diff r.bottom_left = (⟨r.width, 0⟩ : Point) := by
  simp [Rectangle.bottom_right, Point.move, Point.diff, h0]

lemma height_vec_angle_zero (r : Rectangle) (h0 : r.angle_radian = 0) :
    r.top_left.diff r.bottom_left = (⟨0, r.height⟩ : Point) := by
  simp [Rectangle.top_left, Point.move, Point.diff, h0]

/-- At angle 0 with positive spans, the general projection-based `contains`
is exactly the coordinate-bound test with the upper bounds relaxed by the
`0.01` tolerance and made strict. -/
lemma contains_angle_zero_iff (r : Rectangle) (p : Point)
    (h0 : r.angle_radian = 0) (hw : 0 < r.width) (hh : 0 < r.height) :
    r.contains p ↔
      (0 ≤ p.x - r.bottom_left.x ∧ p.x - r.bottom_left.x < r.width + 0.01 ∧
       0 ≤ p.y - r.bottom_left.y ∧ p.y - r.bottom_left.y < r.height + 0.01) := by
  have hgoal : p.diff r.bottom_left = (⟨p.x - r.bottom_left.x, p.y - r.bottom_left.y⟩ : Point) := by
    simp [Point.diff]
  simp only [Rectangle.contains]
  rw [width_vec_angle_zero r h0, height_vec_angle_zero r h0, hgoal,
    project_onto_xaxis _ _ _ (ne_of_gt hw), project_onto_yaxis _ _ _ (ne_of_gt hh),
    length_xaxis, length_yaxis]
  simp only [Point.dot]
  constructor
  · rintro ⟨c1, c2, c3, c4⟩
    have hx : 0 ≤ p.x - r.bottom_left.x := by nlinarith
    have hy : 0 ≤ p.y - r.bottom_left.y := by nlinarith
    rw [abs_of_nonneg hx] at c1
    rw [abs_of_nonneg hy] at c2
    refine ⟨hx, by linarith, hy, by linarith⟩
  · rintro ⟨c1, c2, c3, c4⟩
    rw [abs_of_nonneg c1, abs_of_nonneg c3]
    refine ⟨by linarith, by linarith, by nlinarith, by nlinarith⟩

/-- The axis-aligned specialization's `contains` as plain coordinate bounds. -/
lemma uprightContains_iff (r : Rectangle) (p : Point) :
    uprightContains r p ↔
      (0 ≤ p.x - r.bottom_left.x ∧ p.x - r.bottom_left.x ≤ r.width ∧
       0 ≤ p.y - r.bottom_left.y ∧ p.y - r.bottom_left.y ≤ r.height) := by
  simp only [uprightContains, Point.move, ge_iff_le]
  constructor
  · rintro ⟨c1, c2, c3, c4⟩
    exact ⟨by linarith, by linarith, by linarith, by linarith⟩
  · rintro ⟨c1, c2, c3, c4⟩
    exact ⟨by linarith, by linarith, by linarith, by linarith⟩

lemma vertices_angle_zero (r : Rectangle) (h0 : r.angle_radian = 0) :
    r.getVertices = uprightVertices r := by
  simp only [Rectangle.getVertices, uprightVertices, Rectangle.bottom_right,
    Rectangle.top_right, Rectangle.top_left, Point.move, h0, Real.cos_zero,
    Real.sin_zero, List.cons.injEq, Point.mk.injEq, and_true, neg_zero]
  ring_nf
  simp

lemma upright_le_contains (r : Rectangle) (p : Point)
    (h0 : r.angle_radian = 0) (hw : 0 < r.width) (hh : 0 < r.height) :
    uprightContains r p → r.contains p := by
  intro h
  rw [uprightContains_iff] at h
  rw [contains_angle_zero_iff r p h0 hw hh]
  obtain ⟨c1, c2, c3, c4⟩ := h
  exact ⟨c1, by linarith, c3, by linarith⟩

/-- **C1 (original, refuted)**: at angle 0 the general projection test does
not coincide with the axis-aligned coordinate-bound test: the unit square at
the origin and the point `(1.005, 0.5)` distinguish them, because the
general test accepts any point within the `0.01` tolerance band beyond the
far sides while the axis-aligned test is an exact inclusive bound. -/
noncomputable def rcx : Rectangle := Rectangle.init ⟨0, 0⟩ 1 1 0

noncomputable def pcx : Point := ⟨1.005, 0.5⟩

theorem C1_counterexample : ¬ (rcx.contains pcx ↔ uprightContains rcx pcx) := by
  have hrad : rcx.angle_radian = 0 := by simp [rcx, Rectangle.init]
  have hw : (0:ℝ) < rcx.width := by norm_num [rcx, Rectangle.init]
  have hh : (0:ℝ) < rcx.height := by norm_num [rcx, Rectangle.init]
  have hc : rcx.contains pcx := by
    rw [contains_angle_zero_iff _ _ hrad hw hh]
    norm_num [rcx, pcx, Rectangle.init]
  have hn : ¬ uprightContains rcx pcx := by
    rw [uprightContains_iff]
    norm_num [rcx, pcx, Rectangle.init]
  intro hiff
  exact hn (hiff.mp hc)

/-- **C1 (amended)**: for angle-0 rectangles with positive spans, the
axis-aligned `contains` implies the general projection `contains`, and the
general test equals the coordinate-bound comparison with the upper bounds
relaxed by the `0.01` tolerance (and made strict); consequently the
axis-aligned `intersects` implies the general `intersects` for any pair of
such rectangles.  Exact agreement fails only on the tolerance band (see the
counterexample). -/
theorem C1_amended_angle_zero_refinement
    (r a b : Rectangle) (p : Point)
    (hr : r.angle_radian = 0) (hrw : 0 < r.width) (hrh : 0 < r.height)
    (ha : a.angle_radian = 0) (haw : 0 < a.width) (hah : 0 < a.height)
    (hb : b.angle_radian = 0) (hbw : 0 < b.width) (hbh : 0 < b.height) :
    ((uprightContains r p → r.contains p) ∧
     (r.contains p ↔
       (0 ≤ p.x - r.bottom_left.x ∧ p.x - r.bottom_left.x < r.width + 0.01 ∧
        0 ≤ p.y - r.bottom_left.y ∧ p.y - r.bottom_left.y < r.height + 0.01))) ∧
    (uprightIntersects a b → a.intersects b) := by
  refine ⟨⟨upright_le_contains r p hr hrw hrh, contains_angle_zero_iff r p hr hrw hrh⟩, ?_⟩
  intro hint
  rcases hint with ⟨v, hv, hc⟩ | ⟨v, hv, hc⟩
  · exact Or.inl ⟨v, by rw [vertices_angle_zero b hb]; exact hv,
      upright_le_contains a v ha haw hah hc⟩
  · exact Or.inr ⟨v, by rw [vertices_angle_zero a ha]; exact hv,
      upright_le_contains b v hb hbw hbh hc⟩

noncomputable def wRect : Rectangle := ⟨⟨0, 0⟩, 1, 1, 0, 0⟩

/-- Witness for the amended C1 at the unit square and its interior point. -/
theorem C1_amended_witness : wRect.contains ⟨0.5, 0.5⟩ := by
  have h := C1_amended_angle_zero_refinement wRect wRect wRect ⟨0.5, 0.5⟩
    rfl (by norm_num [wRect]) (by norm_num [wRect])
    rfl (by norm_num [wRect]) (by norm_num [wRect])
    rfl (by norm_num [wRect]) (by norm_num [wRect])
  exact h.1.1 (by norm_num [uprightContains, wRect, Point.move])

/-- `Robot` class constant `width = 50.0` (line 289). -/
def Robot.bodyW : ℝ := 50

/-- `Robot` class constant `height = 30.0` (line 290). -/
def Robot.bodyH : ℝ := 30

/-- `Robot` class constant `gun_width = height / 4` (line 291). -/
noncomputable def Robot.gun_width : ℝ := Robot.bodyH / 4

/-- `Robot` class constant `gun_length = width` (line 292). -/
def Robot.gun_length : ℝ := Robot.bodyW

/-- Mutable `Robot` state (lines 287-311): the robot is a `Rectangle` plus
health, ammo (`bullet`), defense-buff countdown and the derived gun. -/
structure Robot where
  pose : Rectangle
  health : ℚ
  defenseBuffTimer : ℤ
  bullet : ℤ
  gun : Rectangle
  team : ℕ

/-- `Robot.getGun` (lines 365-367), as a function of the pose alone:
nested midpoint chain `vertices[1].midpoint(bottom_left).midpoint(center)
.midpoint(center)` used as the gun's `bottom_left` anchor. -/
noncomputable def gunOf (pose : Rectangle) : Rectangle :=
  Rectangle.init
    (((pose.bottom_right.midpoint pose.bottom_left).midpoint pose.center).midpoint pose.center)
    Robot.gun_length Robot.gun_width pose.angle

noncomputable def Robot.getGun (r : Robot) : Rectangle := gunOf r.pose

/-- `Robot.__init__` (lines 299-311). -/
noncomputable def Robot.start (team : ℕ) (bl : Point) (angle : ℝ) : Robot :=
  let pose := Rectangle.init bl Robot.bodyW Robot.bodyH angle
  { pose := pose, health := 100, defenseBuffTimer := 0, bullet := 0,
    gun := gunOf pose, team := team }

/-- `Robot.alive` (lines 318-319). -/
def Robot.alive (r : Robot) : Bool := r.health > 0

/-- `Robot.hasDefenseBuff` (lines 327-328). -/
def Robot.hasDefenseBuff (r : Robot) : Bool := r.defenseBuffTimer > 0

/-- `Robot.load` (lines 324-325). -/
def Robot.load (r : Robot) (num : ℤ) : Robot := { r with bullet := r.bullet + num }

/-- `Robot.addDefenseBuff` (lines 330-331): overwrite the timer with
`time * 1000`. -/
def Robot.addDefenseBuff (r : Robot) (time : ℤ) : Robot :=
  { r with defenseBuffTimer := time * 1000 }

/-- `Robot.reduceHealth` (lines 369-373). -/
def Robot.reduceHealth (r : Robot) (amount : ℚ) : Robot :=
  if r.alive then
    let amount := if r.hasDefenseBuff then amount / 2 else amount
    { r with health := max 0 (r.health - amount) }
  else r

/-- `Robot.setPosition` (lines 361-363): rebuild the whole rectangle state
from the candidate's fields, then re-derive the gun. -/
noncomputable def Robot.setPosition (r : Robot) (rec : Rectangle) : Robot :=
  let r' := { r with pose := Rectangle.init rec.bottom_left rec.width rec.height rec.angle }
  { r' with gun := gunOf r'.pose }

/-- `Robot.execute` (lines 355-359): resolve the action; on `None` or an
obstructed candidate do nothing, otherwise commit via `setPosition`.  The
environment's obstruction predicate (§6) is passed as a collaborator. -/
noncomputable def Robot.execute (r : Robot) (resolve : Robot → Option Rectangle)
    (isObstructed : Rectangle → Robot → Bool) : Robot :=
  match resolve r with
  | none => r
  | some result_rec =>
      if isObstructed result_rec r then r else r.setPosition result_rec

lemma reduceHealth_nonneg (r : Robot) (a : ℚ) (h : 0 ≤ r.health) :
    0 ≤ (r.reduceHealth a).health := by
  unfold Robot.reduceHealth
  by_cases ha : r.alive
  · simp [ha, le_max_iff]
  · simp [ha, h]

lemma reduceHealth_dead (r : Robot) (a : ℚ) (h : r.health = 0) :
    r.reduceHealth a = r := by
  unfold Robot.reduceHealth
  have : r.alive = false := by simp [Robot.alive, h]
  simp [this]

/-- **C4**: health is never negative across any sequence of `reduceHealth`
calls with non-negative amounts; `reduceHealth` halves the amount when the
defense buff is active, clamps at 0, and is a no-op once health is 0. -/
theorem C4_reduceHealth_clamps_and_halves (r : Robot) (amts : List ℚ) (a : ℚ)
    (h0 : 0 ≤ r.health) (hA : ∀ x ∈ amts, 0 ≤ x) :
    0 ≤ (amts.foldl Robot.reduceHealth r).health ∧
    (r.health = 0 → amts.foldl Robot.reduceHealth r = r) ∧
    (r.alive = true → r.hasDefenseBuff = true →
      (r.reduceHealth a).health = max 0 (r.health - a / 2)) ∧
    (r.alive = true → r.hasDefenseBuff = false →
      (r.reduceHealth a).health = max 0 (r.health - a)) := by
  refine ⟨?_, ?_, ?_, ?_⟩
  · clear hA
    induction amts generalizing r with
    | nil => exact h0
    | cons x xs ih =>
        exact ih (r.reduceHealth x) (reduceHealth_nonneg r x h0)
  · intro hz
    clear hA h0
    induction amts with
    | nil => rfl
    | cons x xs ih => rw [List.foldl_cons, reduceHealth_dead r x hz, ih]
  · intro halive hbuff
    simp [Robot.reduceHealth, halive, hbuff]
  · intro halive hbuff
    simp [Robot.reduceHealth, halive, hbuff]

noncomputable def wPose : Rectangle := ⟨⟨0, 0⟩, 50, 30, 0, 0⟩

noncomputable def wRobot : Robot := ⟨wPose, 100, 0, 0, wPose, 0⟩

/-- Witness for C4: a fresh-health robot hit for 30 without a buff. -/
theorem C4_witness :
    0 ≤ (([5, 300] : List ℚ).foldl Robot.reduceHealth wRobot).health ∧
    (wRobot.reduceHealth 30).health = max 0 (100 - 30) := by
  have h := C4_reduceHealth_clamps_and_halves wRobot [5, 300] 30
    (by norm_num [wRobot]) (by intro x hx; fin_cases hx <;> norm_num)
  refine ⟨h.1, ?_⟩
  have h2 := h.2.2.2 (by simp [Robot.alive, wRobot]) (by simp [Robot.hasDefenseBuff, wRobot])
  rw [h2]
  norm_num [wRobot]

/-- **C10**: `addDefenseBuff` overwrites the timer with `time * 1000`
independently of the prior value, so buffs do not stack. -/
theorem C10_addDefenseBuff_overwrites (r : Robot) (time prior : ℤ) :
    (r.addDefenseBuff time).defenseBuffTimer = time * 1000 ∧
    (({ r with defenseBuffTimer := prior }).addDefenseBuff 30).defenseBuffTimer = 30000 := by
  constructor <;> simp [Robot.addDefenseBuff]

/-- **C6 (original, refuted)**: the gun's *center* does not sit at the
nested midpoint chain; the chain point is used as the gun's `bottom_left`
anchor instead.  Concretely, for a robot at the origin with angle 0 the
chain point is `(25, 11.25)` while the gun's center is `(50, 15)`. -/
theorem C6_counterexample :
    (Robot.getGun wRobot).center ≠
      ((wRobot.pose.bottom_right.midpoint wRobot.pose.bottom_left).midpoint
        wRobot.pose.center).midpoint wRobot.pose.center := by
  intro h
  have hx := congrArg Point.x h
  simp only [Robot.getGun, gunOf, Rectangle.init, Rectangle.center,
    Rectangle.bottom_right, Rectangle.top_right, Point.move, Point.midpoint,
    wRobot, wPose, Robot.gun_length, Robot.gun_width, Robot.bodyW, Robot.bodyH] at hx
  norm_num at hx

/-- **C6 (amended)**: for every robot pose, the gun sub-rectangle's
`bottom_left` anchor (not its center) sits at the nested midpoint chain,
which equals the body anchor shifted by half the body width along the width
axis and three eighths of the body height along the height axis; the gun's
width is the robot's 50-unit span, its height a quarter of the 30-unit
span, and its angle the body's (normalized) angle. -/
theorem C6_gun_derivation (r : Robot) :
    (Robot.getGun r).bottom_left =
      ((r.pose.bottom_right.midpoint r.pose.bottom_left).midpoint
        r.pose.center).midpoint r.pose.center ∧
    (Robot.getGun r).bottom_left =
      ⟨r.pose.bottom_left.x + r.pose.width / 2 * Real.cos r.pose.angle_radian
         - 3 * r.pose.height / 8 * Real.sin r.pose.angle_radian,
       r.pose.bottom_left.y + r.pose.width / 2 * Real.sin r.pose.angle_radian
         + 3 * r.pose.height / 8 * Real.cos r.pose.angle_radian⟩ ∧
    (Robot.getGun r).width = 50 ∧
    (Robot.getGun r).height = 30 / 4 ∧
    (Robot.getGun r).angle = setAngle r.pose.angle := by
  refine ⟨rfl, ?_, rfl, ?_, rfl⟩
  · simp only [Robot.getGun, gunOf, Rectangle.init, Rectangle.center,
      Rectangle.bottom_right, Rectangle.top_right, Point.move, Point.midpoint,
      Point.mk.injEq]
    constructor <;> ring
  · simp [Robot.getGun, gunOf, Rectangle.init, Robot.gun_width, Robot.bodyH]

/-- **C7**: `execute` is a silent no-op when the action resolves to `None`
or to an obstructed candidate; on a clear candidate it rebuilds the pose
from the candidate's fields and re-derives the gun from that new pose,
leaving health, ammo and the buff timer untouched. -/
theorem C7_execute_reject_or_commit (r : Robot) (resolve : Robot → Option Rectangle)
    (isObstructed : Rectangle → Robot → Bool) :
    (resolve r = none → Robot.execute r resolve isObstructed = r) ∧
    (∀ c, resolve r = some c → isObstructed c r = true →
      Robot.execute r resolve isObstructed = r) ∧
    (∀ c, resolve r = some c → isObstructed c r = false →
      Robot.execute r resolve isObstructed = r.setPosition c ∧
      (r.setPosition c).pose = Rectangle.init c.bottom_left c.width c.height c.angle ∧
      (r.setPosition c).gun = gunOf (Rectangle.init c.bottom_left c.width c.height c.angle) ∧
      (r.setPosition c).health = r.health ∧
      (r.setPosition c).bullet = r.bullet ∧
      (r.setPosition c).defenseBuffTimer = r.defenseBuffTimer) := by
  refine ⟨?_, ?_, ?_⟩
  · intro h
    simp [Robot.execute, h]
  · intro c hc hob
    simp [Robot.execute, hc, hob]
  · intro c hc hob
    refine ⟨by simp [Robot.execute, hc, hob], rfl, rfl, rfl, rfl, rfl⟩

/-- Witness for C7: with a strategy that resolves to `None` the robot is
left unchanged, and with a clear candidate the pose is replaced. -/
theorem C7_witness :
    Robot.execute wRobot (fun _ => none) (fun _ _ => false) = wRobot ∧
    Robot.execute wRobot (fun _ => some wPose) (fun _ _ => false) =
      wRobot.setPosition wPose := by
  constructor
  · exact (C7_execute_reject_or_commit wRobot (fun _ => none) (fun _ _ => false)).1 rfl
  · exact ((C7_execute_reject_or_commit wRobot (fun _ => some wPose)
      (fun _ _ => false)).2.2 wPose rfl rfl).1

/-- Value of the `life` attribute of a `LoadingZone` under Python's name
resolution.  The class body (lines 167-199) first binds `life = 3` and
later rebinds the same class-level name with `def life(self)` (line 195),
so on a fresh instance `self.life` resolves to the *bound accessor method*,
not the integer 3; only an instance assignment (`reset`, or the `life -= 1`
statement) makes it an integer. -/
inductive LifeAttr
  | accessor
  | val (n : ℤ)
deriving DecidableEq

/-- The runtime error raised when `self.life <= 0` compares a bound method
with an integer. -/
inductive PyError
  | typeError
deriving DecidableEq

structure LoadingZone where
  life : LifeAttr
  team : ℕ

/-- A freshly constructed `LoadingZone`: `Zone.__init__` sets no instance
`life`, so the name resolves to the shadowing accessor method. -/
def LoadingZone.new (team : ℕ) : LoadingZone := ⟨LifeAttr.accessor, team⟩

/-- `LoadingZone.aligned` (lines 182-186): the stub always returns true. -/
def LoadingZone.aligned (z : LoadingZone) (r : Robot) : Bool := true

/-- `LoadingZone.load` (lines 188-193): no-op when `life <= 0`; otherwise
grant 100 ammo when aligned and decrement `life` regardless.  When `life`
is still the accessor method, the comparison `self.life <= 0` raises. -/
def LoadingZone.load (z : LoadingZone) (r : Robot) :
    Except PyError (LoadingZone × Robot) :=
  match z.life with
  | LifeAttr.accessor => Except.error PyError.typeError
  | LifeAttr.val n =>
    if n ≤ 0 then Except.ok (z, r)
    else if z.aligned r then Except.ok ({ z with life := LifeAttr.val (n - 1) }, r.load 100)
    else Except.ok ({ z with life := LifeAttr.val (n - 1) }, r)

/-- `LoadingZone.reset` (lines 198-199). -/
def LoadingZone.reset (z : LoadingZone) : LoadingZone :=
  { z with life := LifeAttr.val 3 }

/-- **C5 (code bug)**: on the code as written, a freshly constructed
`LoadingZone` does *not* have `life = 3`: the accessor `def life` shadows
the class attribute, so the first `load` raises a `TypeError` instead of
granting ammo.  After `reset()` (which stores an integer 3 on the
instance) the claimed behaviour holds: three loads each grant exactly 100
ammo and decrement `life` to 0, a fourth is a no-op, and `reset` restores
`life` to 3. -/
theorem C5_loading_zone_life_shadowed (team : ℕ) (r : Robot) :
    (LoadingZone.new team).load r = Except.error PyError.typeError ∧
    ((LoadingZone.new team).reset).life = LifeAttr.val 3 ∧
    ((LoadingZone.new team).reset).load r =
      Except.ok ({ life := LifeAttr.val 2, team := team }, r.load 100) ∧
    ({ life := LifeAttr.val 2, team := team } : LoadingZone).load (r.load 100) =
      Except.ok ({ life := LifeAttr.val 1, team := team }, (r.load 100).load 100) ∧
    ({ life := LifeAttr.val 1, team := team } : LoadingZone).load ((r.load 100).load 100) =
      Except.ok ({ life := LifeAttr.val 0, team := team }, ((r.load 100).load 100).load 100) ∧
    ({ life := LifeAttr.val 0, team := team } : LoadingZone).load (((r.load 100).load 100).load 100) =
      Except.ok ({ life := LifeAttr.val 0, team := team }, ((r.load 100).load 100).load 100) ∧
    (((r.load 100).load 100).load 100).bullet = r.bullet + 300 ∧
    ({ life := LifeAttr.val 0, team := team } : LoadingZone).reset.life = LifeAttr.val 3 := by
  refine ⟨rfl, rfl, ?_, ?_, ?_, ?_, ?_, rfl⟩
  · simp [LoadingZone.load, LoadingZone.reset, LoadingZone.new, LoadingZone.aligned]
  · simp [LoadingZone.load, LoadingZone.aligned]
  · simp [LoadingZone.load, LoadingZone.aligned]
  · simp [LoadingZone.load]
  · simp [Robot.load]
    ring

/-- Modelled from the spec: the `Team` class is not in the sources; §4.7
says `DefenseBuffZone.activate` grants the owning team a 30-unit buff
"stored internally ×1000 to convert to tick units", matching the
`Robot.addDefenseBuff` contract (line 330-331), so a team is modelled as
its robots and the team-level grant applies `addDefenseBuff` to each. -/
structure Team where
  robots : List Robot

def Team.addDefenseBuff (t : Team) (time : ℤ) : Team :=
  ⟨t.robots.map (fun r => r.addDefenseBuff time)⟩

/-- `DefenseBuffZone` (lines 205-217): class attribute `active = True`,
one-shot `activate`, resettable. -/
structure DefenseBuffZone where
  active : Bool
  team : Team

def DefenseBuffZone.new (t : Team) : DefenseBuffZone := ⟨true, t⟩

/-- `DefenseBuffZone.activate` (lines 211-214). -/
def DefenseBuffZone.activate (z : DefenseBuffZone) : DefenseBuffZone :=
  if z.active then { active := false, team := z.team.addDefenseBuff 30 } else z

/-- `DefenseBuffZone.reset` (lines 216-217). -/
def DefenseBuffZone.reset (z : DefenseBuffZone) : DefenseBuffZone :=
  { z with active := true }

/-- **C9**: a fresh `DefenseBuffZone` is active; the first `activate` sets
every robot of the owning team's buff timer to `30 * 1000` ticks and turns
the zone inactive; a second `activate` without `reset` is a no-op; `reset`
re-arms the zone for exactly one more activation. -/
theorem C9_defense_buff_one_shot (t : Team) :
    (DefenseBuffZone.new t).active = true ∧
    ((DefenseBuffZone.new t).activate).active = false ∧
    (∀ r ∈ ((DefenseBuffZone.new t).activate).team.robots,
      r.defenseBuffTimer = 30 * 1000) ∧
    ((DefenseBuffZone.new t).activate).activate = (DefenseBuffZone.new t).activate ∧
    (∀ z : DefenseBuffZone, z.active = false → z.activate = z) ∧
    (((DefenseBuffZone.new t).activate).reset).active = true ∧
    ((((DefenseBuffZone.new t).activate).reset).activate).active = false ∧
    (∀ r ∈ ((((DefenseBuffZone.new t).activate).reset).activate).team.robots,
      r.defenseBuffTimer = 30 * 1000) := by
  have hnoop : ∀ z : DefenseBuffZone, z.active = false → z.activate = z := by
    intro z hz
    simp [DefenseBuffZone.activate, hz]
  have hmem : ∀ (s : Team), ∀ r ∈ (s.addDefenseBuff 30).robots,
      r.defenseBuffTimer = 30 * 1000 := by
    intro s r hr
    simp only [Team.addDefenseBuff, List.mem_map] at hr
    obtain ⟨x, hx, rfl⟩ := hr
    simp [Robot.addDefenseBuff]
  refine ⟨rfl, rfl, ?_, ?_, hnoop, rfl, rfl, ?_⟩
  · intro r hr
    exact hmem t r (by simpa [DefenseBuffZone.new, DefenseBuffZone.activate] using hr)
  · exact hnoop _ rfl
  · intro r hr
    exact hmem _ r (by
      simpa [DefenseBuffZone.new, DefenseBuffZone.activate, DefenseBuffZone.reset,
        Team.addDefenseBuff] using hr)

/-- Witness for C9 at a one-robot team. -/
theorem C9_witness :
    (wRobot.addDefenseBuff 30).defenseBuffTimer = 30 * 1000 ∧
    ((DefenseBuffZone.new ⟨[wRobot]⟩).activate).activate =
      (DefenseBuffZone.new ⟨[wRobot]⟩).activate := by
  constructor
  · exact (C9_defense_buff_one_shot ⟨[wRobot]⟩).2.2.1 (wRobot.addDefenseBuff 30)
      (by simp [DefenseBuffZone.new, DefenseBuffZone.activate, Team.addDefenseBuff])
  · exact (C9_defense_buff_one_shot ⟨[wRobot]⟩).2.2.2.1

/-- `Bullet` state (lines 236-249).  `id` stands for Python object
identity, which `destruct` uses to remove the bullet from the live list
(`not b == self` is identity comparison on these objects). -/
structure Bullet where
  id : ℕ
  delay : ℤ
  speed : ℝ
  travelled : ℝ
  point : Point
  dir : ℝ
  team : ℕ
  active : Bool

/-- Class constant `damage = 20` (line 238). -/
def Bullet.damage : ℚ := 20

/-- `Bullet.__init__(point, dir, team, env)` (lines 241-249): delay 0,
speed 25, direction converted from degrees to radians, active. -/
noncomputable def Bullet.fire (id : ℕ) (point : Point) (dirDeg : ℝ) (team : ℕ) : Bullet :=
  ⟨id, 0, 25, 0, point, dirDeg / 180 * Real.pi, team, true⟩

/-- An entry of `env.unpenetrables()`: a static `Obstacle` (an
`uprightRectangle`) or a robot, referenced by its index in the world's
robot list so that damage mutates the shared robot. -/
inductive Unpen
  | obstacle (r : Rectangle)
  | robotRef (i : ℕ)

/-- The environment collaborator state the ballistics step reads and
writes (§6): the robot registry, the `unpenetrables()` iteration order,
the `isLegal` bounds predicate and the live bullet collection. -/
structure World where
  robots : List Robot
  unpen : List Unpen
  legal : Point → Prop
  bullets : List Bullet

/-- `blocks(point, vec)` of an unpenetrable body: obstacles use the
overridden axis-aligned `contains` (`Obstacle` extends `uprightRectangle`),
robots the general projection `contains` (`Robot` extends `Rectangle`);
the motion vector is ignored (lines 101-102). -/
noncomputable def Unpen.blocksAt (w : World) : Unpen → Point → Point → Prop
  | Unpen.obstacle r, p, _ => uprightContains r p
  | Unpen.robotRef i, p, _ =>
      match w.robots.get? i with
      | some rb => rb.pose.contains p
      | none => False

open Classical in
/-- The `for block in self.env.unpenetrables()` loop of `Bullet.act`
(lines 259-264): the first body that blocks wins. -/
noncomputable def firstBlock (w : World) : List Unpen → Point → Point → Option Unpen
  | [], _, _ => none
  | u :: rest, p, v => if Unpen.blocksAt w u p v then some u else firstBlock w rest p v

/-- In-place mutation of the robot at index `i` in the registry. -/
def updateAt (f : Robot → Robot) : List Robot → ℕ → List Robot
  | [], _ => []
  | r :: rs, 0 => f r :: rs
  | r :: rs, Nat.succ n => r :: updateAt f rs n

/-- `Bullet.destruct` (lines 274-276): filter the bullet out of the live
collection by identity, then clear `active`. -/
def Bullet.destruct (w : World) (b : Bullet) : World × Bullet :=
  ({ w with bullets := w.bullets.filter (fun x => x.id != b.id) },
   { b with active := false })

open Classical in
/-- `Bullet.act` (lines 251-269): do nothing when inactive; while
`delay > 0` only decrement it; otherwise step `speed` units along `dir`,
self-destruct on the first blocking body (damaging it when it is a robot),
else move when the next point is legal and self-destruct out of bounds. -/
noncomputable def Bullet.act (w : World) (b : Bullet) : World × Bullet :=
  if b.active = false then (w, b)
  else if 0 < b.delay then (w, { b with delay := b.delay - 1 })
  else
    let move_point := b.point.move (Real.cos b.dir * b.speed) (Real.sin b.dir * b.speed)
    let move_vec := move_point.diff b.point
    match firstBlock w w.unpen move_point move_vec with
    | some u =>
        let wb := Bullet.destruct w b
        match u with
        | Unpen.robotRef i =>
            ({ wb.1 with
                robots := updateAt (fun rb => rb.reduceHealth Bullet.damage) wb.1.robots i },
             wb.2)
        | Unpen.obstacle _ => wb
    | none =>
        if w.legal move_point then (w, { b with point := move_point })
        else Bullet.destruct w b

/-- **C3**: in a world with no blocking body where every point is legal, a
delay-0 bullet with speed 25 and direction 0 starting at the origin is at
`(25, 0)` after one `act` and `(50, 0)` after a second; while `delay > 0`,
`act` only decrements the delay and does not move the bullet. -/
theorem C3_bullet_steps_25_per_tick (w : World) (b : Bullet)
    (hu : w.unpen = []) (hl : ∀ p, w.legal p)
    (ha : b.active = true) (hd : b.delay = 0) (hs : b.speed = 25)
    (hdir : b.dir = 0) (hp : b.point = ⟨0, 0⟩) :
    Bullet.act w b = (w, { b with point := ⟨25, 0⟩ }) ∧
    Bullet.act w { b with point := ⟨25, 0⟩ } = (w, { b with point := ⟨50, 0⟩ }) ∧
    (∀ b' : Bullet, b'.active = true → 0 < b'.delay →
      Bullet.act w b' = (w, { b' with delay := b'.delay - 1 })) := by
  refine ⟨?_, ?_, ?_⟩
  · rw [Bullet.act]
    simp only [ha, hd, hs, hdir, hp, hu]
    norm_num [firstBlock, Point.move, hl _]
  · rw [Bullet.act]
    simp only [ha, hd, hs, hdir, hp, hu]
    norm_num [firstBlock, Point.move, hl _]
  · intro b' ha' hd'
    rw [Bullet.act]
    simp [ha', hd']

/-- The empty, all-legal world. -/
def emptyWorld : World := ⟨[], [], fun _ => True, []⟩

/-- Witness for C3: a bullet fired at direction 0° from the origin in the
empty world is at `(25, 0)` after one tick. -/
theorem C3_witness :
    Bullet.act emptyWorld (Bullet.fire 0 ⟨0, 0⟩ 0 0) =
      (emptyWorld, { Bullet.fire 0 ⟨0, 0⟩ 0 0 with point := ⟨25, 0⟩ }) := by
  exact (C3_bullet_steps_25_per_tick emptyWorld (Bullet.fire 0 ⟨0, 0⟩ 0 0)
    rfl (fun p => trivial) rfl rfl rfl (by simp [Bullet.fire]) rfl).1

lemma updateAt_get_same (f : Robot → Robot) (l : List Robot) (i : ℕ) :
    (updateAt f l i).get? i = (l.get? i).map f := by
  induction l generalizing i with
  | nil => cases i <;> rfl
  | cons x xs ih => cases i with
    | zero => rfl
    | succ n => simpa [updateAt] using ih n

lemma updateAt_get_other (f : Robot → Robot) (l : List Robot) (i j : ℕ) (h : j ≠ i) :
    (updateAt f l i).get? j = l.get? j := by
  induction l generalizing i j with
  | nil => cases i <;> rfl
  | cons x xs ih =>
      cases i with
      | zero => cases j with
        | zero => exact absurd rfl h
        | succ m => rfl
      | succ n => cases j with
        | zero => rfl
        | succ m => simpa [updateAt] using ih n m (by omega)

/-- The shape of `Bullet.act` on the tick where the first blocking body in
iteration order is the robot at index `i`. -/
lemma act_hits_robot (w : World) (b : Bullet) (i : ℕ) (mp : Point)
    (ha : b.active = true) (hd : b.delay = 0)
    (hmp : b.point.move (Real.cos b.dir * b.speed) (Real.sin b.dir * b.speed) = mp)
    (hfb : firstBlock w w.unpen mp (mp.diff b.point) = some (Unpen.robotRef i)) :
    Bullet.act w b =
      ({ w with
          robots := updateAt (fun rb => rb.reduceHealth Bullet.damage) w.robots i,
          bullets := w.bullets.filter (fun x => x.id != b.id) },
       { b with active := false }) := by
  subst hmp
  rw [Bullet.act]
  simp only [ha, hd, hfb, Bullet.destruct]
  norm_num

/-- The shape of `Bullet.act` on the tick where the first blocking body in
iteration order is a static obstacle: destruct only, no damage. -/
lemma act_hits_obstacle (w : World) (b : Bullet) (r : Rectangle) (mp : Point)
    (ha : b.active = true) (hd : b.delay = 0)
    (hmp : b.point.move (Real.cos b.dir * b.speed) (Real.sin b.dir * b.speed) = mp)
    (hfb : firstBlock w w.unpen mp (mp.diff b.point) = some (Unpen.obstacle r)) :
    Bullet.act w b =
      ({ w with bullets := w.bullets.filter (fun x => x.id != b.id) },
       { b with active := false }) := by
  subst hmp
  rw [Bullet.act]
  simp only [ha, hd, hfb, Bullet.destruct]
  norm_num

/-- **C2 (amended)**: when an active delay-0 bullet's next sample point is
first blocked by some impenetrable body `u`, `act` deactivates the bullet
and filters it out of the live bullet collection; if `u` is a static
obstacle no robot is touched, and if `u` is the robot at index `i`, that
robot receives `reduceHealth 20`: its health becomes `max 0 (health - 20)`
(or `max 0 (health - 10)` under the defense buff) while it is alive, and is
unchanged when it is already dead; every other robot and the rest of the
world are untouched. -/
theorem C2_bullet_hit_applies_damage (w : World) (b : Bullet) (u : Unpen) (mp : Point)
    (ha : b.active = true) (hd : b.delay = 0)
    (hmp : b.point.move (Real.cos b.dir * b.speed) (Real.sin b.dir * b.speed) = mp)
    (hfb : firstBlock w w.unpen mp (mp.diff b.point) = some u) :
    (Bullet.act w b).2.active = false ∧
    (Bullet.act w b).1.bullets = w.bullets.filter (fun x => x.id != b.id) ∧
    (∀ x ∈ (Bullet.act w b).1.bullets, x.id ≠ b.id) ∧
    (∀ r, u = Unpen.obstacle r → (Bullet.act w b).1.robots = w.robots) ∧
    (∀ i, u = Unpen.robotRef i →
      (∀ rb, w.robots.get? i = some rb →
        (Bullet.act w b).1.robots.get? i = some (rb.reduceHealth Bullet.damage) ∧
        (rb.alive = true → rb.hasDefenseBuff = false →
          (rb.reduceHealth Bullet.damage).health = max 0 (rb.health - 20)) ∧
        (rb.alive = true → rb.hasDefenseBuff = true →
          (rb.reduceHealth Bullet.damage).health = max 0 (rb.health - 10)) ∧
        (rb.alive = false → rb.reduceHealth Bullet.damage = rb)) ∧
      (∀ j, j ≠ i → (Bullet.act w b).1.robots.get? j = w.robots.get? j)) ∧
    (Bullet.act w b).1.unpen = w.unpen := by
  cases u with
  | obstacle r =>
      rw [act_hits_obstacle w b r mp ha hd hmp hfb]
      refine ⟨rfl, rfl, ?_, fun _ _ => rfl, ?_, rfl⟩
      · intro x hx
        simp only [List.mem_filter, bne_iff_ne, ne_eq] at hx
        exact hx.2
      · intro i hi
        exact Unpen.noConfusion hi
  | robotRef i =>
      rw [act_hits_robot w b i mp ha hd hmp hfb]
      refine ⟨rfl, rfl, ?_, ?_, ?_, rfl⟩
      · intro x hx
        simp only [List.mem_filter, bne_iff_ne, ne_eq] at hx
        exact hx.2
      · intro r hr
        exact Unpen.noConfusion hr
      · intro i' hi'
        injection hi' with hii
        subst hii
        refine ⟨?_, ?_⟩
        · intro rb hrb
          refine ⟨?_, ?_, ?_, ?_⟩
          · show (updateAt (fun rb => rb.reduceHealth Bullet.damage) w.robots i).get? i = _
            rw [updateAt_get_same, hrb]
            rfl
          · intro h1 h2
            simp [Robot.reduceHealth, h1, h2, Bullet.damage]
          · intro h1 h2
            simp [Robot.reduceHealth, h1, h2, Bullet.damage]
            norm_num
          · intro h1
            simp [Robot.reduceHealth, h1]
        · intro j hj
          exact updateAt_get_other _ _ _ _ hj

noncomputable def cPose : Rectangle := ⟨⟨20, -10⟩, 50, 30, 0, 0⟩

/-- A robot with only 5 health left, parked across the bullet's path. -/
noncomputable def cRobot5 : Robot := ⟨cPose, 5, 0, 0, cPose, 0⟩

noncomputable def cBullet : Bullet := ⟨0, 0, 25, 0, ⟨0, 0⟩, 0, 1, true⟩

noncomputable def cWorld : World :=
  ⟨[cRobot5], [Unpen.robotRef 0], fun _ => True, [cBullet]⟩

lemma cRobot5_pose_contains : cRobot5.pose.contains ⟨25, 0⟩ := by
  rw [contains_angle_zero_iff _ _ rfl (by norm_num [cRobot5, cPose])
    (by norm_num [cRobot5, cPose])]
  norm_num [cRobot5, cPose]

lemma cWorld_firstBlock (v : Point) :
    firstBlock cWorld cWorld.unpen ⟨25, 0⟩ v = some (Unpen.robotRef 0) := by
  have hblk : Unpen.blocksAt cWorld (Unpen.robotRef 0) ⟨25, 0⟩ v := cRobot5_pose_contains
  show firstBlock cWorld [Unpen.robotRef 0] ⟨25, 0⟩ v = _
  rw [firstBlock, if_pos hblk]

/-- **C2 (original, refuted)**: the hit robot's health does not always drop
by exactly 20: with 5 health remaining (and no buff) the clamp leaves it at
0, a drop of 5. -/
theorem C2_counterexample :
    (Bullet.act cWorld cBullet).1.robots.map Robot.health = [0] ∧
    cRobot5.health - Bullet.damage ≠ 0 := by
  constructor
  · rw [act_hits_robot cWorld cBullet 0 ⟨25, 0⟩ rfl rfl
      (by simp [cBullet, Point.move]) (cWorld_firstBlock _)]
    show (updateAt _ cWorld.robots 0).map Robot.health = [0]
    norm_num [cWorld, updateAt, Robot.reduceHealth, Robot.alive,
      Robot.hasDefenseBuff, cRobot5, Bullet.damage]
  · norm_num [cRobot5, Bullet.damage]

noncomputable def wWorld : World :=
  ⟨[wRobot], [Unpen.robotRef 0], fun _ => True, [cBullet]⟩

lemma wRobot_pose_contains : wRobot.pose.contains ⟨25, 0⟩ := by
  rw [contains_angle_zero_iff _ _ rfl (by norm_num [wRobot, wPose])
    (by norm_num [wRobot, wPose])]
  norm_num [wRobot, wPose]

lemma wWorld_firstBlock (v : Point) :
    firstBlock wWorld wWorld.unpen ⟨25, 0⟩ v = some (Unpen.robotRef 0) := by
  have hblk : Unpen.blocksAt wWorld (Unpen.robotRef 0) ⟨25, 0⟩ v := wRobot_pose_contains
  show firstBlock wWorld [Unpen.robotRef 0] ⟨25, 0⟩ v = _
  rw [firstBlock, if_pos hblk]

/-- A world whose only unpenetrable body is a static obstacle across the
bullet's path. -/
noncomputable def oWorld : World :=
  ⟨[], [Unpen.obstacle cPose], fun _ => True, [cBullet]⟩

lemma oWorld_firstBlock (v : Point) :
    firstBlock oWorld oWorld.unpen ⟨25, 0⟩ v = some (Unpen.obstacle cPose) := by
  have hblk : Unpen.blocksAt oWorld (Unpen.obstacle cPose) ⟨25, 0⟩ v := by
    show uprightContains cPose ⟨25, 0⟩
    rw [uprightContains_iff]
    norm_num [cPose]
  show firstBlock oWorld [Unpen.obstacle cPose] ⟨25, 0⟩ v = _
  rw [firstBlock, if_pos hblk]

/-- Witness for the amended C2 in both blocker cases: with a full-health
robot in the bullet's path the bullet deactivates and the robot ends at
`reduceHealth 20`; with a static obstacle in the path the bullet
deactivates, leaves the live bullet collection empty and touches no
robot. -/
theorem C2_witness :
    ((Bullet.act wWorld cBullet).2.active = false ∧
     (Bullet.act wWorld cBullet).1.robots.get? 0 =
       some (wRobot.reduceHealth Bullet.damage)) ∧
    ((Bullet.act oWorld cBullet).2.active = false ∧
     (Bullet.act oWorld cBullet).1.bullets = [] ∧
     (Bullet.act oWorld cBullet).1.robots = oWorld.robots) := by
  have h1 := C2_bullet_hit_applies_damage wWorld cBullet (Unpen.robotRef 0) ⟨25, 0⟩
    rfl rfl (by simp [cBullet, Point.move]) (wWorld_firstBlock _)
  have h2 := C2_bullet_hit_applies_damage oWorld cBullet (Unpen.obstacle cPose) ⟨25, 0⟩
    rfl rfl (by simp [cBullet, Point.move]) (oWorld_firstBlock _)
  refine ⟨⟨h1.1, ((h1.2.2.2.2.1 0 rfl).1 wRobot rfl).1⟩, h2.1, ?_, h2.2.2.2.1 cPose rfl⟩
  rw [h2.2.1]
  simp [oWorld]
